import Mathlib

/-!
Verification of the turn-processing pipeline of a customer-support chatbot
(FastAPI + SQLAlchemy + LangChain service).

The development shallowly embeds the core modules:

* `app/core/tools.py`    — reference-data lookup tools,
* `app/llm/prompts.py`   — fallback message,
* `app/llm/chain.py`     — keyword intent routing, argument extraction,
  response synthesis and the mandatory "Ringkas:" postprocessing,
* `app/core/memory.py`   — sliding-window memory retrieval,
* `app/core/chat_service.py` — turn orchestration.

Conventions of the embedding:

* Python strings are Lean `String`s; all case folding and whitespace
  classification is ASCII, which covers every string constant of the source.
* Database rows are Lean structures; a database state is a list of rows.
  SQL queries are embedded as pure functions of those lists (`filter`,
  `find?`, `mergeSort`, `take`); the `ORDER BY`/`LIMIT` of the memory query
  is determinized with a stable merge sort.
* `datetime` columns that the core only formats or truth-tests are carried
  as their already-formatted display strings (the `strftime` rendering
  itself is plumbing done by the C library).
* The text-generation backend (Ollama) is external; it is modeled by its
  outcome, `Except Unit String`: `.ok text` is a successful generation,
  `.error ()` a raised backend error.
* Failures of the message-log query in memory retrieval are likewise
  modeled by an `Except Unit (List Msg)` outcome.
-/

namespace Chatbot

/-! ### Python string primitives (ASCII semantics) -/

/-- ASCII whitespace, the class matched by Python `str.strip()` / `\s` on the
ASCII plane (`Char.isWhitespace` covers space, tab, CR, LF). -/
def wsChar (c : Char) : Bool := c.isWhitespace

/-- Python `str.strip()` on a character list: drop whitespace from both ends. -/
def stripList (l : List Char) : List Char :=
  ((l.dropWhile wsChar).reverse.dropWhile wsChar).reverse

/-- Python `str.strip()`. -/
def pyStrip (s : String) : String := String.mk (stripList s.toList)

/-- Python `needle in hay` substring test. -/
def containsStr (needle hay : String) : Bool :=
  decide (needle.toList <:+: hay.toList)

/-- Python `s.endswith(suffix)`. -/
def pyEndsWith (s suffixStr : String) : Bool :=
  suffixStr.toList.isSuffixOf s.toList

/-- Python `s.startswith(prefixStr)`. -/
def pyStartsWith (s prefixStr : String) : Bool :=
  prefixStr.toList.isPrefixOf s.toList

/-- Python `s.lower()` (ASCII case folding, which is all the source uses):
per-character lowercasing of the underlying character list. -/
def lowerStr (s : String) : String := String.mk (s.toList.map Char.toLower)

/-- Python `sep.join(parts)`. -/
def pyJoin (sep : String) : List String → String
  | [] => ""
  | [s] => s
  | s :: rest => s ++ sep ++ pyJoin sep rest

/-- The last line of a string: characters after the final newline. -/
def lastLine (s : String) : List Char :=
  (s.toList.reverse.takeWhile (fun c => ¬ (c = '\n'))).reverse

/-- Whether a string ends with a line beginning `"Ringkas:"` — the property
the specification demands of every synthesized reply. -/
def endsWithRingkasLine (s : String) : Bool :=
  "Ringkas:".toList.isPrefixOf (lastLine s)

/-! ### Data model (`app/db/models.py`)

The `id` columns generated by `uuid.uuid4()` are never read back by the core
logic and are omitted from `Msg`.  Timestamps are logical `Nat` clocks for
`Msg` (only their relative order is ever consumed, by `ORDER BY created_at`)
and preformatted display strings for `Order` (only their `strftime` rendering
is ever consumed). -/

/-- A row of the `messages` table. -/
structure Msg where
  session_id : String
  role : String
  content : String
  turn_index : Nat
  created_at : Nat
deriving Repr, DecidableEq

/-- One entry of the memory excerpt: the `{"role": ..., "content": ...}`
dictionary built by `MemoryManager.get_memory_context`. -/
structure MemoryEntry where
  role : String
  content : String
deriving Repr, DecidableEq

/-- A row of the `orders` table.  `carrier` and `tracking_number` are nullable
strings; `eta_date` is a nullable datetime carried as its `"%d %B %Y"`
rendering; `last_update_at` is carried as its `"%d %B %Y pukul %H:%M"`
rendering (`none` models a missing/falsy value). -/
structure Order where
  id : String
  user_id : String
  status : String
  last_update_at : Option String
  eta_date : Option String
  carrier : Option String
  tracking_number : Option String
deriving Repr, DecidableEq

/-- A row of the `products` table.  `price` (a `Numeric(12,2)`) is modeled in
whole rupiah: the only consumer formats it with `f"{price:,.0f}"`, i.e.
rounded to an integer. -/
structure Product where
  id : String
  name : String
  features : Option String
  price : Option Nat
  stock : Option Int
deriving Repr, DecidableEq

/-- A row of the `policies` table. -/
structure Policy where
  id : String
  type : String
  content_markdown : String
  created_at : Nat
  updated_at : Nat
deriving Repr, DecidableEq

/-- The reference-data / message-log database state seen by one turn. -/
structure DB where
  orders : List Order
  products : List Product
  policies : List Policy
deriving Repr

/-- Python truthiness of an optional string column (`None` and `""` are
falsy, as in `if order.carrier and order.tracking_number:`). -/
def truthyStr : Option String → Bool
  | none => false
  | some s => s ≠ ""

/-! ### Tools (`app/core/tools.py`) -/

/-- The `status_messages` mapping of `get_order_status_impl`, with the
`dict.get(status, status)` raw-passthrough default. -/
def statusText (status : String) : String :=
  if status = "pending" then "sedang diproses"
  else if status = "confirmed" then "telah dikonfirmasi"
  else if status = "shipped" then "sedang dalam pengiriman"
  else if status = "delivered" then "telah sampai tujuan"
  else if status = "cancelled" then "telah dibatalkan"
  else status

/-- The initial element of `response_parts`:
`f"Pesanan {order_id} {status_text}"`. -/
def headPart (order_id : String) (o : Order) : String :=
  "Pesanan " ++ order_id ++ " " ++ statusText o.status

/-- The conditional `parts.append` for carrier and tracking number:
`if order.carrier and order.tracking_number` (Python truthiness: both
non-null and non-empty). -/
def carrierParts (o : Order) : List String :=
  match o.carrier, o.tracking_number with
  | some c, some t =>
    if c ≠ "" ∧ t ≠ "" then ["via " ++ c ++ " dengan nomor resi " ++ t] else []
  | _, _ => []

/-- The conditional `parts.append` for the ETA:
`if order.eta_date and order.status in ["confirmed", "shipped"]`. -/
def etaParts (o : Order) : List String :=
  match o.eta_date with
  | some eta =>
    if o.status = "confirmed" ∨ o.status = "shipped"
    then ["dengan estimasi tiba " ++ eta] else []
  | none => []

/-- The conditional `parts.append` for the last update timestamp:
`if order.last_update_at`. -/
def updateParts (o : Order) : List String :=
  match o.last_update_at with
  | some upd => ["Terakhir diupdate: " ++ upd]
  | none => []

/-- The `response_parts` list built for a found order:
a head part, then conditionally carrier+tracking, ETA, and last update. -/
def responseParts (order_id : String) (o : Order) : List String :=
  [headPart order_id o] ++ carrierParts o ++ etaParts o ++ updateParts o

/-- The message composed by `get_order_status_impl` for a found order:
`". ".join(response_parts) + "."`. -/
def composeOrderMessage (order_id : String) (o : Order) : String :=
  pyJoin ". " (responseParts order_id o) ++ "."

/-- Embeds `get_order_status_impl`: exact-id lookup (the `id` column is the primary
key, so `scalar_one_or_none` is `find?`), not-found message, or composed
status message.  The `except` branch that converts a database error into an
apology string is unreachable in this pure embedding of the query. -/
def get_order_status_impl (order_id : String) (orders : List Order) : String :=
  match orders.find? (fun o => o.id == order_id) with
  | none =>
    "Pesanan dengan ID " ++ order_id ++
      " tidak ditemukan. Pastikan ID pesanan benar atau hubungi customer service."
  | some o => composeOrderMessage order_id o

/-- Decimal digits of a natural number, most significant first. -/
def natDigits (n : Nat) : List Char :=
  (Nat.toDigits 10 n)

/-- Insert a separator every three digits from the right, as Python
`f"{n:,.0f}"` does (the source then replaces `","` by `"."`). -/
def groupThousands (sep : Char) (digits : List Char) : List Char :=
  ((digits.reverse.toChunks 3).intersperse [sep]).flatten.reverse

/-- The price rendering of `get_product_info_impl`:
`f"Rp {price:,.0f}".replace(",", ".")` on a whole-rupiah amount. -/
def formatPrice (price : Nat) : String :=
  "Rp " ++ String.mk (groupThousands '.' (natDigits price))

/-- The `response_parts` list of `get_product_info_impl` for a found product. -/
def productParts (p : Product) : List String :=
  ["Produk: " ++ p.name]
  ++ (match p.features with
      | some f => if f ≠ "" then ["Fitur: " ++ f] else []
      | none => [])
  ++ (match p.price with
      | some pr => if pr ≠ 0 then ["Harga: " ++ formatPrice pr] else []
      | none => [])
  ++ (match p.stock with
      | some st =>
        if st > 0 then ["Stok: " ++ toString st ++ " unit tersedia"]
        else ["Stok: sedang kosong"]
      | none => [])

/-- Embeds `get_product_info_impl`: case-insensitive substring search over product
names (`Product.name.ilike(f"%{name}%")`), first match in storage order,
not-found message otherwise. -/
def get_product_info_impl (product_name : String) (products : List Product) : String :=
  match (products.filter (fun p =>
      containsStr (lowerStr product_name) (lowerStr p.name))).head? with
  | none =>
    "Produk \x27" ++ product_name ++
      "\x27 tidak ditemukan. Silakan periksa nama produk atau lihat katalog lengkap di website kami."
  | some p => pyJoin ". " (productParts p) ++ "."

/-- SQLAlchemy `scalar_one_or_none`: `none` on zero rows, the row on exactly
one, and a raised `MultipleResultsFound` (modeled as `.error ()`) on more. -/
def scalarOneOrNone : List α → Except Unit (Option α)
  | [] => .ok none
  | [a] => .ok (some a)
  | _ => .error ()

/-- The fixed default five-step warranty procedure text returned by
`get_warranty_policy_impl` when no `"warranty"` policy row exists. -/
def WARRANTY_DEFAULT : String :=
  "Prosedur klaim garansi:\n1. Siapkan nota pembelian asli dan kartu garansi\n2. Hubungi customer service di 0800-1234-5678 (gratis) atau email cs@toko.com\n3. Jelaskan masalah produk dengan detail\n4. Tim CS akan memberikan instruksi selanjutnya (perbaikan atau penggantian)\n5. Garansi berlaku 1 tahun dari tanggal pembelian untuk kerusakan manufaktur\n\nCatatan: Garansi tidak berlaku untuk kerusakan akibat kesalahan penggunaan atau faktor eksternal."

/-- The apology string of `get_warranty_policy_impl`'s `except` branch. -/
def WARRANTY_ERROR : String :=
  "Maaf, terjadi kesalahan saat mengambil informasi garansi. Silakan hubungi customer service di 0800-1234-5678."

/-- Embeds `get_warranty_policy_impl`: select policies of type `"warranty"`,
`scalar_one_or_none` the result; absent → fixed default text, present →
stored content verbatim, multiple rows → the raised `MultipleResultsFound`
is caught by the `except` branch and converted to the apology string. -/
def get_warranty_policy_impl (policies : List Policy) : String :=
  match scalarOneOrNone (policies.filter (fun p => p.type == "warranty")) with
  | .error _ => WARRANTY_ERROR
  | .ok none => WARRANTY_DEFAULT
  | .ok (some p) => p.content_markdown

/-! ### Prompts (`app/llm/prompts.py`)

The system-prompt template is consumed only by the external text-generation
backend, which this embedding abstracts by its outcome; the fallback message
is observable in replies and is embedded verbatim. -/

/-- The `FALLBACK_PROMPT` constant returned by `get_fallback_response()` (verbatim,
including the two trailing spaces after "tertentu"). -/
def FALLBACK_PROMPT : String :=
  "Maaf, saya adalah chatbot customer support yang khusus membantu dengan:\n\n1. **Status Pesanan** - Cek pesanan dengan menyebutkan ID pesanan\n2. **Informasi Produk** - Tanyakan spesifikasi atau fitur produk tertentu  \n3. **Klaim Garansi** - Prosedur dan syarat klaim garansi\n\nContoh pertanyaan yang bisa saya bantu:\n- \"Di mana pesanan saya? ID: ORD123\"\n- \"Apa kelebihan laptop gaming Y?\"\n- \"Bagaimana cara klaim garansi?\"\n\nSilakan ajukan pertanyaan sesuai kategori di atas, atau hubungi customer service di 0800-1234-5678 untuk bantuan lainnya.\n\nRingkas: Saya membantu status pesanan, info produk, dan klaim garansi - silakan tanyakan sesuai kategori tersebut."

/-- Embeds `get_fallback_response()`. -/
def get_fallback_response : String := FALLBACK_PROMPT

/-! ### Intent routing and extraction (`app/llm/chain.py`) -/

/-- Keyword list of `ChatChain._should_call_order_tool`. -/
def orderKeywords : List String :=
  ["pesanan", "order", "status", "di mana", "dimana", "ID:", "id:", "ORD"]

/-- Keyword list of `ChatChain._should_call_product_tool`. -/
def productKeywords : List String :=
  ["produk", "kelebihan", "fitur", "spesifikasi", "harga", "laptop", "smartphone", "apa kelebihan"]

/-- Keyword list of `ChatChain._should_call_warranty_tool`. -/
def warrantyKeywords : List String :=
  ["garansi", "warranty", "klaim", "cara klaim", "prosedur"]

/-- Embeds `any(keyword.lower() in message.lower() for keyword in keywords)`. -/
def keywordMatch (keywords : List String) (message : String) : Bool :=
  let message_lower := lowerStr message
  keywords.any (fun k => containsStr (lowerStr k) message_lower)

/-- Embeds `ChatChain._should_call_order_tool`. -/
def should_call_order_tool (message : String) : Bool :=
  keywordMatch orderKeywords message

/-- Embeds `ChatChain._should_call_product_tool`. -/
def should_call_product_tool (message : String) : Bool :=
  keywordMatch productKeywords message

/-- Embeds `ChatChain._should_call_warranty_tool`. -/
def should_call_warranty_tool (message : String) : Bool :=
  keywordMatch warrantyKeywords message

/-- ASCII letter or digit: the class `[A-Z0-9]` under `re.IGNORECASE`. -/
def isAlnumAscii (c : Char) : Bool := c.isAlpha || c.isDigit

/-- A regex word character (`\w` on the ASCII plane). -/
def isWordChar (c : Char) : Bool := isAlnumAscii c || c = '_'

/-- Try the pattern `ID\s*:\s*([A-Z0-9]+)` (with `re.IGNORECASE`) anchored at
the head of `s`; on success return the captured group. -/
def idColonAt (s : List Char) : Option String :=
  match s with
  | c1 :: c2 :: rest =>
    if c1.toLower = 'i' ∧ c2.toLower = 'd' then
      match rest.dropWhile wsChar with
      | ':' :: r2 =>
        let run := (r2.dropWhile wsChar).takeWhile isAlnumAscii
        if run ≠ [] then some (String.mk run) else none
      | _ => none
    else none
  | _ => none

/-- Models `re.search` for the `ID\s*:\s*([A-Z0-9]+)` pattern: leftmost match wins. -/
def searchIdColon : List Char → Option String
  | [] => none
  | c :: rest =>
    match idColonAt (c :: rest) with
    | some t => some t
    | none => searchIdColon rest

/-- Try the pattern `\b(ORD[A-Z0-9]+)\b` (with `re.IGNORECASE`) anchored at
the head of `s` (the left word boundary is checked by the caller).  The
trailing `\b` fails only when the character after the greedy alphanumeric
run is an underscore. -/
def ordTokenAt (s : List Char) : Option String :=
  match s with
  | c1 :: c2 :: c3 :: rest =>
    if c1.toLower = 'o' ∧ c2.toLower = 'r' ∧ c3.toLower = 'd' then
      let run := rest.takeWhile isAlnumAscii
      if run ≠ [] ∧ (rest.drop run.length).head? ≠ some '_' then
        some (String.mk (c1 :: c2 :: c3 :: run))
      else none
    else none
  | _ => none

/-- Models `re.search` for `\b(ORD[A-Z0-9]+)\b`: scan left to right carrying the
previous character to decide the left word boundary. -/
def searchOrdToken : Option Char → List Char → Option String
  | _, [] => none
  | prev, c :: rest =>
    let boundaryOk := match prev with
      | none => true
      | some p => ¬ isWordChar p
    match (if boundaryOk then ordTokenAt (c :: rest) else none) with
    | some t => some t
    | none => searchOrdToken (some c) rest

/-- Embeds `ChatChain._extract_order_id`: the three patterns are tried in order;
the first two (`ID\s*:\s*…` and `id\s*:\s*…`) coincide under
`re.IGNORECASE`, so a single search covers both; `""` when all fail. -/
def extract_order_id (message : String) : String :=
  match searchIdColon message.toList with
  | some t => t
  | none =>
    match searchOrdToken none message.toList with
    | some t => t
    | none => ""

/-- Case-insensitive literal match of `kw` at the head of a string; returns
the remainder on success. -/
def matchCI : List Char → List Char → Option (List Char)
  | [], s => some s
  | _ :: _, [] => none
  | k :: ks, c :: cs => if k.toLower = c.toLower then matchCI ks cs else none

/-- The character class `[A-Za-z0-9\s]` of the product-name patterns. -/
def prodClassChar (c : Char) : Bool := isAlnumAscii c || wsChar c

/-- Characters up to (excluding) the first `?` or `.`, provided every one of
them lies in `[A-Za-z0-9\s]`; `none` when an out-of-class character or the
end of the string is reached first. -/
def takeUntilStop : List Char → Option (List Char)
  | [] => none
  | c :: rest =>
    if c = '?' ∨ c = '.' then some []
    else if prodClassChar c then (takeUntilStop rest).map (c :: ·)
    else none

/-- Try the pattern `kw\s+([A-Za-z0-9\s]+?)[\?\.]` (with `re.IGNORECASE`)
anchored at the head of `s`, returning `match.group(1).strip()`: after the
keyword there must be at least one whitespace character and at least one
further in-class character before the first `?`/`.`; the lazily captured
group, whitespace-stripped, is determined by that span. -/
def kwPatternAt (kw : List Char) (s : List Char) : Option String :=
  match matchCI kw s with
  | none => none
  | some rest =>
    match takeUntilStop rest with
    | none => none
    | some mid =>
      match mid with
      | m1 :: _ :: _ => if wsChar m1 then some (String.mk (stripList mid)) else none
      | _ => none

/-- Models `re.search` for one product-name pattern: leftmost match wins. -/
def searchKwPattern (kw : List Char) : List Char → Option String
  | [] => none
  | c :: rest =>
    match kwPatternAt kw (c :: rest) with
    | some g => some g
    | none => searchKwPattern kw rest

/-- Python `s.split()` (no separator): split on whitespace runs, without
empty fragments. -/
def pyWords (s : String) : List String :=
  (s.split wsChar).filter (fun w => w ≠ "")

/-- Python `s.strip(".,?!")`. -/
def stripPunct (l : List Char) : List Char :=
  let bad : List Char := ['.', ',', '?', '!']
  ((l.dropWhile (fun c => bad.contains c)).reverse.dropWhile (fun c => bad.contains c)).reverse

/-- The keyword fallback of `ChatChain._extract_product_name`: if the keyword
occurs in the lowercased message, split on it and take up to three words
after its first occurrence, stripped of `.,?!`. -/
def fallbackAfterKeyword (keyword : String) (message : String) : Option String :=
  let ml := lowerStr message
  if containsStr (lowerStr keyword) ml then
    match ml.splitOn keyword with
    | _ :: p1 :: _ =>
      let candidate := (pyWords (pyStrip p1)).take 3
      some (String.mk (stripPunct (pyJoin " " candidate).toList))
    | _ => none
  else none

/-- Embeds `ChatChain._extract_product_name`: the three regex patterns in order,
then the keyword fallback in order, then the generic placeholder. -/
def extract_product_name (message : String) : String :=
  match searchKwPattern "produk".toList message.toList with
  | some g => g
  | none =>
  match searchKwPattern "laptop".toList message.toList with
  | some g => g
  | none =>
  match searchKwPattern "smartphone".toList message.toList with
  | some g => g
  | none =>
  match fallbackAfterKeyword "produk" message with
  | some g => g
  | none =>
  match fallbackAfterKeyword "laptop" message with
  | some g => g
  | none =>
  match fallbackAfterKeyword "smartphone" message with
  | some g => g
  | none => "produk"

/-! ### Dispatch and response synthesis (`ChatChain.invoke` and helpers) -/

/-- The `tool_calls` list and `tool_results` dictionary built by the
keyword-dispatch block of `ChatChain.invoke`. -/
structure DispatchResult where
  tool_calls : List String
  order_status : Option String
  product_info : Option String
  warranty_policy : Option String
deriving Repr, DecidableEq

/-- The state before any tool has been invoked. -/
def emptyDispatch : DispatchResult := ⟨[], none, none, none⟩

/-- The `if/elif/elif` tool-dispatch block of `ChatChain.invoke`.  The three
tools are always present in the `tools` list (`get_tools` constructs all
three), so the `next(...)` lookups always succeed. -/
def dispatch_tools (user_message : String) (db : DB) : DispatchResult :=
  if should_call_order_tool user_message then
    let order_id := extract_order_id user_message
    if order_id ≠ "" then
      ⟨["get_order_status"], some (get_order_status_impl order_id db.orders), none, none⟩
    else emptyDispatch
  else if should_call_product_tool user_message then
    let product_name := extract_product_name user_message
    if product_name ≠ "" then
      ⟨["get_product_info"], none, some (get_product_info_impl product_name db.products), none⟩
    else emptyDispatch
  else if should_call_warranty_tool user_message then
    ⟨["get_warranty_policy"], none, none, some (get_warranty_policy_impl db.policies)⟩
  else emptyDispatch

/-- Python `if tool_results:` — the dictionary is non-empty. -/
def hasToolResults (dr : DispatchResult) : Bool :=
  dr.order_status.isSome || dr.product_info.isSome || dr.warranty_policy.isSome

/-- Embeds `ChatChain._generate_response_with_tools`: wrap the (single) tool result,
appending the tool-specific canned summary unless the text already ends with
the bare marker. -/
def generate_response_with_tools (dr : DispatchResult) : String :=
  match dr.order_status with
  | some result =>
    if ¬ pyEndsWith result "Ringkas:" then
      result ++ "\n\nRingkas: Informasi pesanan telah ditemukan dan disampaikan."
    else result
  | none =>
  match dr.product_info with
  | some result =>
    if ¬ pyEndsWith result "Ringkas:" then
      result ++ "\n\nRingkas: Informasi produk telah disampaikan dengan lengkap."
    else result
  | none =>
  match dr.warranty_policy with
  | some result =>
    if ¬ pyEndsWith result "Ringkas:" then
      result ++ "\n\nRingkas: Prosedur klaim garansi telah dijelaskan lengkap."
    else result
  | none => "Maaf, terjadi kesalahan dalam memproses permintaan Anda."

/-- Embeds `ChatChain._generate_regular_response`: invoke the text-generation
backend on the assembled prompt; a raised backend error is caught locally
and replaced by the fixed fallback message.  The prompt built from
`user_message` and `memory_context` is consumed only by the external
backend, which the `llm` outcome abstracts. -/
def generate_regular_response (user_message memory_context : String)
    (llm : Except Unit String) : String :=
  match llm with
  | .ok content => content
  | .error _ => get_fallback_response

/-- The trailing-summary postprocessing inlined in `ChatChain.invoke`
(`# Ensure response ends with "Ringkas: ..."`), factored here as a
definition. -/
def ensure_ringkas (response_message : String) : String :=
  if ¬ pyEndsWith (pyStrip response_message) "Ringkas:" then
    if ¬ containsStr "Ringkas:" response_message then
      response_message ++ "\n\nRingkas: Sudah memberikan jawaban sesuai pertanyaan Anda."
    else response_message
  else response_message

/-- Embeds `MemoryManager.format_memory_for_prompt`. -/
def format_memory_for_prompt (context : List MemoryEntry) : String :=
  match context with
  | [] => "Tidak ada riwayat percakapan sebelumnya."
  | _ =>
    pyJoin "\n" ("Riwayat percakapan sebelumnya:" ::
      context.map (fun msg =>
        (if msg.role = "user" then "Pengguna" else "Asisten") ++ ": " ++ msg.content))

/-- The result dictionary of `ChatChain.invoke` (its `session_id` echo is
omitted: it is the caller's argument, returned unchanged). -/
structure InvokeResult where
  message : String
  tool_calls : List String
deriving Repr

/-- Embeds `ChatChain.invoke`: keyword dispatch, response synthesis (tool wrapping
or generative path), then the `"Ringkas:"` postprocessing.  The outer
`except` branch of the source is unreachable here: every tool models its own
error recovery and the backend error is caught inside
`generate_regular_response`. -/
def invoke (user_message : String) (memory_context : List MemoryEntry)
    (db : DB) (llm : Except Unit String) : InvokeResult :=
  let memory_text := format_memory_for_prompt memory_context
  let dr := dispatch_tools user_message db
  let response_message :=
    if hasToolResults dr then generate_response_with_tools dr
    else generate_regular_response user_message memory_text llm
  { message := ensure_ringkas response_message, tool_calls := dr.tool_calls }

/-! ### Memory retrieval (`app/core/memory.py`) -/

/-- The `ORDER BY turn_index DESC, created_at DESC` comparison of
`MemoryManager.get_memory_context`: `a` may be emitted before `b` when the
key of `a` is lexicographically at least the key of `b`. -/
def memDescLe (a b : Msg) : Prop :=
  b.turn_index < a.turn_index ∨
    (b.turn_index = a.turn_index ∧ b.created_at ≤ a.created_at)

instance : DecidableRel memDescLe := fun a b => by
  unfold memDescLe
  infer_instance

instance : IsTotal Msg memDescLe :=
  ⟨fun a b => by unfold memDescLe; omega⟩

instance : IsTrans Msg memDescLe :=
  ⟨fun a b c h1 h2 => by unfold memDescLe at *; omega⟩

/-- The row set produced by the memory query and the subsequent Python
reversal: sort the session's messages by (turn index, creation time)
descending (SQL leaves the order of key-equal rows unspecified; a stable
insertion sort determinizes it), keep the first `max_exchanges * 2`,
reverse to chronological order. -/
def memoryRows (sessionMsgs : List Msg) (max_exchanges : Nat) : List Msg :=
  ((sessionMsgs.insertionSort memDescLe).take (max_exchanges * 2)).reverse

/-- Embeds `MemoryManager.get_memory_context` as a function of the message-log
query outcome: a raised query error is caught by the `except` branch and
converted to the empty context. -/
def get_memory_context_from (outcome : Except Unit (List Msg))
    (max_exchanges : Nat) : List MemoryEntry :=
  match outcome with
  | .error _ => []
  | .ok sessionMsgs =>
    (memoryRows sessionMsgs max_exchanges).map (fun m => ⟨m.role, m.content⟩)

/-- The rows of the `messages` table belonging to one session. -/
def sessionMessages (log : List Msg) (session_id : String) : List Msg :=
  log.filter (fun m => m.session_id == session_id)

/-- Embeds `MemoryManager.get_memory_context` on a successfully queried log. -/
def get_memory_context (log : List Msg) (session_id : String)
    (max_exchanges : Nat) : List MemoryEntry :=
  get_memory_context_from (.ok (sessionMessages log session_id)) max_exchanges

/-- The message rows underlying `get_memory_context` (before projection to
role/content pairs), used to state ordering properties. -/
def get_memory_messages (log : List Msg) (session_id : String)
    (max_exchanges : Nat) : List Msg :=
  memoryRows (sessionMessages log session_id) max_exchanges

/-! ### Turn orchestration (`app/core/chat_service.py`) -/

/-- The `SELECT MAX(turn_index)` aggregate over one session's rows, with the
empty aggregate (SQL `NULL`, mapped to `0` by the source's
`(max_turn or 0)`) as fold base. -/
def maxTurnIndex (log : List Msg) (session_id : String) : Nat :=
  ((sessionMessages log session_id).map (fun m => m.turn_index)).foldr max 0

/-- Embeds `ChatService._get_next_turn_index`: the max aggregate plus one. -/
def get_next_turn_index (log : List Msg) (session_id : String) : Nat :=
  maxTurnIndex log session_id + 1

/-- The outcome of one `ChatService.process_message` call.  Besides the
`ChatResponse` fields (`message`, `turn_index`, `tool_calls`), the record
exposes the memory excerpt passed to the chain and the resulting message
log, both of which the specification constrains. -/
structure TurnResult where
  message : String
  turn_index : Nat
  tool_calls : List String
  memory_context : List MemoryEntry
  log : List Msg
deriving Repr

/-- Embeds `ChatService.process_message`: compute the next turn index, persist the
user message, fetch the memory context, run the chain, persist the
assistant message at the same turn index.  `now` is the logical creation
time of the user row; the assistant row is created strictly later. -/
def process_message (log : List Msg) (session_id user_message : String)
    (max_exchanges : Nat) (db : DB) (llm : Except Unit String) (now : Nat) : TurnResult :=
  let turn_index := get_next_turn_index log session_id
  let user_msg : Msg := ⟨session_id, "user", user_message, turn_index, now⟩
  let log1 := log ++ [user_msg]
  let memory_context := get_memory_context log1 session_id max_exchanges
  let llm_response := invoke user_message memory_context db llm
  let assistant_msg : Msg := ⟨session_id, "assistant", llm_response.message, turn_index, now + 1⟩
  { message := llm_response.message
    turn_index := turn_index
    tool_calls := llm_response.tool_calls
    memory_context := memory_context
    log := log1 ++ [assistant_msg] }

/-! ## Helper lemmas -/

theorem toList_append (a b : String) : (a ++ b).toList = a.toList ++ b.toList := rfl

theorem containsStr_iff {needle hay : String} :
    containsStr needle hay = true ↔ needle.toList <:+: hay.toList := by
  simp [containsStr]

theorem stripList_infix (l : List Char) : stripList l <:+: l := by
  have h1 : l.dropWhile wsChar <:+ l :=
    ⟨l.takeWhile wsChar, l.takeWhile_append_dropWhile wsChar⟩
  have h2 : (l.dropWhile wsChar).reverse.dropWhile wsChar <:+ (l.dropWhile wsChar).reverse :=
    ⟨(l.dropWhile wsChar).reverse.takeWhile wsChar,
      (l.dropWhile wsChar).reverse.takeWhile_append_dropWhile wsChar⟩
  have h3 : stripList l <+: l.dropWhile wsChar := by
    have h4 := List.reverse_prefix.mpr h2
    simpa [stripList] using h4
  exact h3.isInfix.trans h1.isInfix

theorem pyStrip_toList (s : String) : (pyStrip s).toList = stripList s.toList := rfl

theorem contains_of_endsWith_strip {s marker : String}
    (h : pyEndsWith (pyStrip s) marker = true) : containsStr marker s = true := by
  rw [containsStr_iff]
  have h1 : marker.toList <:+ (pyStrip s).toList := by
    simpa [pyEndsWith] using h
  have h2 : (pyStrip s).toList <:+: s.toList := by
    rw [pyStrip_toList]; exact stripList_infix s.toList
  exact h1.isInfix.trans h2

theorem infix_append_right {α : Type} {l₁ l₂ l₃ : List α} (h : l₁ <:+: l₃) :
    l₁ <:+: l₂ ++ l₃ := by
  obtain ⟨p, q, rfl⟩ := h
  exact ⟨l₂ ++ p, q, by simp⟩

/-- The marker `"Ringkas:"` occurs in the generic appended summary line. -/
theorem ringkas_in_summary :
    "Ringkas:".toList <:+:
      "\n\nRingkas: Sudah memberikan jawaban sesuai pertanyaan Anda.".toList := by
  decide

theorem ensure_ringkas_of_not_contains {s : String}
    (h : containsStr "Ringkas:" s = false) :
    ensure_ringkas s =
      s ++ "\n\nRingkas: Sudah memberikan jawaban sesuai pertanyaan Anda." := by
  have h1 : pyEndsWith (pyStrip s) "Ringkas:" = false := by
    by_contra hc
    have := @contains_of_endsWith_strip s "Ringkas:"
      (by simpa using Bool.of_not_eq_false hc)
    simp [this] at h
  simp [ensure_ringkas, h1, h]

theorem ensure_ringkas_contains (s : String) :
    containsStr "Ringkas:" (ensure_ringkas s) = true := by
  by_cases h1 : pyEndsWith (pyStrip s) "Ringkas:" = true
  · have : ensure_ringkas s = s := by simp [ensure_ringkas, h1]
    rw [this]
    exact contains_of_endsWith_strip h1
  · by_cases h2 : containsStr "Ringkas:" s = true
    · have : ensure_ringkas s = s := by
        simp [ensure_ringkas, h2, Bool.eq_false_iff.mpr h1]
      rw [this, h2]
    · rw [ensure_ringkas_of_not_contains (Bool.eq_false_iff.mpr h2)]
      rw [containsStr_iff, toList_append]
      exact infix_append_right ringkas_in_summary

theorem lastLine_append_summary (s : String) :
    lastLine (s ++ "\n\nRingkas: Sudah memberikan jawaban sesuai pertanyaan Anda.") =
      "Ringkas: Sudah memberikan jawaban sesuai pertanyaan Anda.".toList := by
  unfold lastLine
  rw [toList_append, List.reverse_append, List.takeWhile_append, if_neg (by decide)]
  decide

theorem endsWithRingkasLine_append_summary (s : String) :
    endsWithRingkasLine
      (s ++ "\n\nRingkas: Sudah memberikan jawaban sesuai pertanyaan Anda.") = true := by
  unfold endsWithRingkasLine
  rw [lastLine_append_summary]
  decide

/-! ## Claim theorems -/

/-- C10: `get_memory_context` never raises to its caller — when the message
log query fails, the `except` branch of `MemoryManager.get_memory_context`
returns the empty excerpt instead of propagating the error (the function is
total, so a memory-retrieval failure degrades the turn silently). -/
theorem memory_failure_returns_empty :
    ∀ max_exchanges : Nat,
      get_memory_context_from (Except.error ()) max_exchanges = [] := by
  intro n
  rfl

set_option maxRecDepth 8192 in
/-- Postprocessing the fixed fallback message leaves it unchanged (it already
contains the `"Ringkas:"` marker and does not end with the bare marker). -/
theorem ensure_ringkas_fallback : ensure_ringkas FALLBACK_PROMPT = FALLBACK_PROMPT := by
  have h1 : pyEndsWith (pyStrip FALLBACK_PROMPT) "Ringkas:" = false := by decide
  have h2 : containsStr "Ringkas:" FALLBACK_PROMPT = true := by decide
  simp [ensure_ringkas, h1, h2]

/-- C8: on every non-tool utterance (no intent keyword matches), a raised
text-generation backend error is recovered locally — the reply equals the
fixed fallback message listing the three supported intents, the tool-call
list is empty, and (the embedding being a total function) the failure is
never propagated to the caller. -/
theorem generation_failure_fallback (m : String) (ctx : List MemoryEntry) (db : DB)
    (h1 : should_call_order_tool m = false)
    (h2 : should_call_product_tool m = false)
    (h3 : should_call_warranty_tool m = false) :
    (invoke m ctx db (Except.error ())).message = FALLBACK_PROMPT
    ∧ (invoke m ctx db (Except.error ())).tool_calls = [] := by
  have hd : dispatch_tools m db = emptyDispatch := by
    simp [dispatch_tools, h1, h2, h3]
  constructor
  · show ensure_ringkas _ = _
    rw [hd]
    show ensure_ringkas (if hasToolResults emptyDispatch then _ else _) = _
    rw [if_neg (by decide)]
    exact ensure_ringkas_fallback
  · show (dispatch_tools m db).tool_calls = []
    rw [hd]
    rfl

theorem generation_failure_fallback_witness :
    (invoke "halo" [] ⟨[], [], []⟩ (Except.error ())).message = FALLBACK_PROMPT
    ∧ (invoke "halo" [] ⟨[], [], []⟩ (Except.error ())).tool_calls = [] :=
  generation_failure_fallback "halo" [] ⟨[], [], []⟩ (by decide) (by decide) (by decide)

/-- C7: when the utterance matches the order intent but order-id extraction
yields the empty string, no tool is invoked despite the intent match — the
tool-call list is empty (the `elif` chain is skipped entirely) and the reply
comes from the generative path. -/
theorem extraction_miss_no_tool (m : String) (ctx : List MemoryEntry) (db : DB)
    (llm : Except Unit String)
    (h1 : should_call_order_tool m = true)
    (h2 : extract_order_id m = "") :
    (invoke m ctx db llm).tool_calls = []
    ∧ (invoke m ctx db llm).message =
        ensure_ringkas (generate_regular_response m (format_memory_for_prompt ctx) llm) := by
  have hd : dispatch_tools m db = emptyDispatch := by
    simp [dispatch_tools, h1, h2]
  constructor
  · show (dispatch_tools m db).tool_calls = []
    rw [hd]; rfl
  · show ensure_ringkas _ = _
    rw [hd]
    show ensure_ringkas (if hasToolResults emptyDispatch then _ else _) = _
    rw [if_neg (by decide)]

theorem extraction_miss_no_tool_witness :
    (invoke "status" [] ⟨[], [], []⟩ (Except.ok "jawaban") ).tool_calls = [] :=
  (extraction_miss_no_tool "status" [] ⟨[], [], []⟩ (Except.ok "jawaban")
    (by decide) (by decide)).1

/-- C3: intent routing is first-match-wins in the fixed priority order —
per turn the tool-call list is empty or exactly one of the three tool names,
and on an utterance matching both the order and the product triggers the
order-status branch is the one taken (the product and warranty tools are
never invoked; the order tool is invoked exactly when an order id is
extractable). -/
theorem intent_priority_single_tool (m : String) (ctx : List MemoryEntry) (db : DB)
    (llm : Except Unit String) :
    ((invoke m ctx db llm).tool_calls = []
      ∨ (invoke m ctx db llm).tool_calls = ["get_order_status"]
      ∨ (invoke m ctx db llm).tool_calls = ["get_product_info"]
      ∨ (invoke m ctx db llm).tool_calls = ["get_warranty_policy"])
    ∧ (should_call_order_tool m = true → should_call_product_tool m = true →
        (invoke m ctx db llm).tool_calls =
          (if extract_order_id m ≠ "" then ["get_order_status"] else [])) := by
  have key : (invoke m ctx db llm).tool_calls = (dispatch_tools m db).tool_calls := rfl
  constructor
  · rw [key]
    by_cases ho : should_call_order_tool m
    · by_cases he : extract_order_id m = ""
      · simp [dispatch_tools, ho, he, emptyDispatch]
      · simp [dispatch_tools, ho, he]
    · by_cases hp : should_call_product_tool m
      · by_cases hpe : extract_product_name m = ""
        · simp [dispatch_tools, ho, hp, hpe, emptyDispatch]
        · simp [dispatch_tools, ho, hp, hpe]
      · by_cases hw : should_call_warranty_tool m
        · simp [dispatch_tools, ho, hp, hw]
        · simp [dispatch_tools, ho, hp, hw, emptyDispatch]
  · intro h1 _h2
    rw [key]
    by_cases he : extract_order_id m = ""
    · simp [dispatch_tools, h1, he, emptyDispatch]
    · simp [dispatch_tools, h1, he]

theorem intent_priority_single_tool_witness :
    (invoke "status produk" [] ⟨[], [], []⟩ (Except.ok "ok")).tool_calls = [] := by
  have h := (intent_priority_single_tool "status produk" [] ⟨[], [], []⟩
    (Except.ok "ok")).2 (by decide) (by decide)
  rw [h]
  decide

set_option maxRecDepth 8192 in
/-- C4 counterexample: when the text-generation backend returns a text that
contains `"Ringkas:"` but not as its final line, the reply is returned
unchanged and does not end with a line beginning `"Ringkas:"` — refuting the
claim that every reply ends with such a line. -/
theorem reply_without_trailing_ringkas :
    (invoke "halo" [] ⟨[], [], []⟩
        (Except.ok "Ringkas: ya.\nSelain itu masih ada detail lain.")).message =
      "Ringkas: ya.\nSelain itu masih ada detail lain."
    ∧ endsWithRingkasLine
        ((invoke "halo" [] ⟨[], [], []⟩
          (Except.ok "Ringkas: ya.\nSelain itu masih ada detail lain.")).message) = false := by
  constructor
  · decide
  · decide

/-- C4 (amended): every reply contains `"Ringkas:"` as a substring, and when
the synthesized text lacks the marker entirely the generic summary line is
appended mechanically, making the reply end with a line beginning
`"Ringkas:"`; a text already containing the marker elsewhere is returned
unchanged (and need not end with such a line). -/
theorem ringkas_postprocessing (m : String) (ctx : List MemoryEntry) (db : DB)
    (llm : Except Unit String) :
    containsStr "Ringkas:" ((invoke m ctx db llm).message) = true
    ∧ (∀ resp, containsStr "Ringkas:" resp = false →
        ensure_ringkas resp =
          resp ++ "\n\nRingkas: Sudah memberikan jawaban sesuai pertanyaan Anda."
        ∧ endsWithRingkasLine (ensure_ringkas resp) = true) := by
  constructor
  · exact ensure_ringkas_contains _
  · intro resp h
    refine ⟨ensure_ringkas_of_not_contains h, ?_⟩
    rw [ensure_ringkas_of_not_contains h]
    exact endsWithRingkasLine_append_summary resp

theorem ringkas_postprocessing_witness :
    containsStr "Ringkas:"
      ((invoke "halo" [] ⟨[], [], []⟩ (Except.ok "jawab saja")).message) = true
    ∧ ensure_ringkas "jawab saja" =
        "jawab saja" ++ "\n\nRingkas: Sudah memberikan jawaban sesuai pertanyaan Anda." := by
  have h := ringkas_postprocessing "halo" [] ⟨[], [], []⟩ (Except.ok "jawab saja")
  exact ⟨h.1, (h.2 "jawab saja" (by decide)).1⟩

set_option maxRecDepth 8192 in
/-- C9 counterexample: with two policy rows of type `"warranty"` in the
reference data, warranty records exist, yet `scalar_one_or_none` raises
`MultipleResultsFound` and the tool returns the apology string — not the
stored content of any record, refuting "when a warranty record exists, its
stored content is returned verbatim". -/
theorem warranty_multiple_records :
    (∃ p ∈ ([⟨"pol1", "warranty", "Garansi resmi berlaku 2 tahun.", 0, 0⟩,
             ⟨"pol2", "warranty", "Garansi toko berlaku 30 hari.", 1, 1⟩] : List Policy),
        p.type = "warranty")
    ∧ (∀ p ∈ ([⟨"pol1", "warranty", "Garansi resmi berlaku 2 tahun.", 0, 0⟩,
               ⟨"pol2", "warranty", "Garansi toko berlaku 30 hari.", 1, 1⟩] : List Policy),
        get_warranty_policy_impl
          [⟨"pol1", "warranty", "Garansi resmi berlaku 2 tahun.", 0, 0⟩,
           ⟨"pol2", "warranty", "Garansi toko berlaku 30 hari.", 1, 1⟩]
          ≠ p.content_markdown) := by
  constructor
  · decide
  · decide

set_option maxRecDepth 8192 in
/-- C9 (amended): when no policy row of type `"warranty"` exists, the
warranty tool returns the fixed default five-step claim-procedure text and
the resulting warranty-intent turn reply ends with a `"Ringkas:"` line; when
exactly one warranty row exists, its stored content is returned verbatim
(with several rows the lookup error is converted to the apology string, see
the counterexample). -/
theorem warranty_policy_lookup (db : DB) (m : String) (ctx : List MemoryEntry)
    (llm : Except Unit String) :
    (db.policies.filter (fun q => q.type == "warranty") = [] →
      get_warranty_policy_impl db.policies = WARRANTY_DEFAULT
      ∧ (should_call_order_tool m = false → should_call_product_tool m = false →
          should_call_warranty_tool m = true →
          endsWithRingkasLine ((invoke m ctx db llm).message) = true))
    ∧ (∀ p, db.policies.filter (fun q => q.type == "warranty") = [p] →
        get_warranty_policy_impl db.policies = p.content_markdown) := by
  constructor
  · intro hfil
    have himpl : get_warranty_policy_impl db.policies = WARRANTY_DEFAULT := by
      unfold get_warranty_policy_impl
      rw [hfil]
      rfl
    refine ⟨himpl, ?_⟩
    intro ho hp hw
    have hd : dispatch_tools m db =
        ⟨["get_warranty_policy"], none, none, some WARRANTY_DEFAULT⟩ := by
      simp [dispatch_tools, ho, hp, hw, himpl]
    have hmsg : (invoke m ctx db llm).message =
        ensure_ringkas (generate_response_with_tools
          ⟨["get_warranty_policy"], none, none, some WARRANTY_DEFAULT⟩) := by
      show ensure_ringkas _ = _
      rw [hd]
      rfl
    rw [hmsg]
    decide
  · intro p hfil
    unfold get_warranty_policy_impl
    rw [hfil]
    rfl

theorem warranty_policy_lookup_witness :
    get_warranty_policy_impl (DB.policies ⟨[], [], []⟩) = WARRANTY_DEFAULT
    ∧ endsWithRingkasLine
        ((invoke "garansi" [] ⟨[], [], []⟩ (Except.ok "x")).message) = true := by
  have h := (warranty_policy_lookup ⟨[], [], []⟩ "garansi" [] (Except.ok "x")).1 (by decide)
  exact ⟨h.1, h.2 (by decide) (by decide) (by decide)⟩

/-- Chronological order of two message rows: lexicographically non-decreasing
(turn index, creation time) keys — the ascending counterpart of the memory
query's descending retrieval key. -/
def chronLe (a b : Msg) : Prop :=
  a.turn_index < b.turn_index ∨
    (a.turn_index = b.turn_index ∧ a.created_at ≤ b.created_at)

/-- C5: for every session and message-log state, the memory excerpt has at
most `2 × maxExchanges` entries, its underlying rows are in chronological
(oldest-first) order of the retrieval key, and the excerpt is the row list
projected to (role, content) pairs. -/
theorem memory_window_bound_and_order (log : List Msg) (sid : String) (n : Nat) :
    (get_memory_context log sid n).length ≤ 2 * n
    ∧ List.Pairwise chronLe (get_memory_messages log sid n)
    ∧ get_memory_context log sid n =
        (get_memory_messages log sid n).map (fun m => ⟨m.role, m.content⟩) := by
  refine ⟨?_, ?_, rfl⟩
  · have h1 : (get_memory_context log sid n).length =
        (memoryRows (sessionMessages log sid) n).length := by
      simp [get_memory_context, get_memory_context_from]
    have h2 : (memoryRows (sessionMessages log sid) n).length ≤ n * 2 := by
      simp [memoryRows]
    omega
  · have hs : List.Pairwise memDescLe
        ((sessionMessages log sid).insertionSort memDescLe) :=
      List.sorted_insertionSort memDescLe (sessionMessages log sid)
    have ht : List.Pairwise memDescLe
        (((sessionMessages log sid).insertionSort memDescLe).take (n * 2)) :=
      hs.sublist (List.take_sublist _ _)
    show List.Pairwise chronLe
      ((((sessionMessages log sid).insertionSort memDescLe).take (n * 2)).reverse)
    rw [List.pairwise_reverse]
    exact ht.imp (fun {a b} h => h)

/-- Every member of a Nat list is bounded by its `foldr max 0`. -/
theorem mem_le_foldr_max {x : Nat} {l : List Nat} (h : x ∈ l) : x ≤ l.foldr max 0 := by
  induction l with
  | nil => cases h
  | cons a t ih =>
    rcases List.mem_cons.mp h with rfl | hm
    · simp
    · have := ih hm
      simp
      omega

/-- The fold `foldr max 0` distributes over list append. -/
theorem foldr_max_append (l₁ l₂ : List Nat) :
    (l₁ ++ l₂).foldr max 0 = max (l₁.foldr max 0) (l₂.foldr max 0) := by
  induction l₁ with
  | nil => simp
  | cons a t ih =>
    simp [ih]
    omega

/-- A session member's turn index is bounded by the session's max aggregate. -/
theorem turn_le_maxTurnIndex {m : Msg} {log : List Msg} {sid : String}
    (h : m ∈ sessionMessages log sid) : m.turn_index ≤ maxTurnIndex log sid :=
  mem_le_foldr_max (List.mem_map_of_mem (fun m => m.turn_index) h)

/-- Splitting the session filter over an appended log. -/
theorem sessionMessages_append (log l₂ : List Msg) (sid : String) :
    sessionMessages (log ++ l₂) sid =
      sessionMessages log sid ++ sessionMessages l₂ sid := by
  simp [sessionMessages]

/-- The max-turn aggregate after appending two rows of the same session. -/
theorem maxTurnIndex_append_two (log : List Msg) (sid : String) (u a : Msg)
    (hu : u.session_id = sid) (ha : a.session_id = sid) :
    maxTurnIndex (log ++ [u, a]) sid =
      max (maxTurnIndex log sid) (max u.turn_index a.turn_index) := by
  unfold maxTurnIndex
  rw [sessionMessages_append]
  have hpair : sessionMessages [u, a] sid = [u, a] := by
    simp [sessionMessages, hu, ha]
  rw [hpair, List.map_append, foldr_max_append]
  show max _ (max u.turn_index (max a.turn_index 0)) = _
  omega

/-- C2: the turn index assigned by `process_message` is `1 +` the session's
maximum existing turn index (`0` if the session has no messages); the user
and assistant messages are persisted with that same index; the session's max
aggregate afterwards equals the assigned index, hence sequential
single-threaded calls increase the index by exactly `1`, starting at `1`. -/
theorem turn_index_assignment (log : List Msg) (sid text : String) (n : Nat)
    (db : DB) (llm : Except Unit String) (now : Nat) :
    (process_message log sid text n db llm now).turn_index = maxTurnIndex log sid + 1
    ∧ (process_message log sid text n db llm now).log =
        log ++ [⟨sid, "user", text, maxTurnIndex log sid + 1, now⟩,
                ⟨sid, "assistant", (process_message log sid text n db llm now).message,
                 maxTurnIndex log sid + 1, now + 1⟩]
    ∧ maxTurnIndex (process_message log sid text n db llm now).log sid =
        maxTurnIndex log sid + 1
    ∧ (sessionMessages log sid = [] →
        (process_message log sid text n db llm now).turn_index = 1)
    ∧ (∀ text2 llm2 now2,
        (process_message (process_message log sid text n db llm now).log sid
          text2 n db llm2 now2).turn_index =
          (process_message log sid text n db llm now).turn_index + 1) := by
  have hlog : (process_message log sid text n db llm now).log =
      log ++ [⟨sid, "user", text, maxTurnIndex log sid + 1, now⟩,
              ⟨sid, "assistant", (process_message log sid text n db llm now).message,
               maxTurnIndex log sid + 1, now + 1⟩] := by
    show (log ++ [_]) ++ [_] = _
    rw [List.append_assoc]
    rfl
  have hmax : maxTurnIndex (process_message log sid text n db llm now).log sid =
      maxTurnIndex log sid + 1 := by
    rw [hlog, maxTurnIndex_append_two log sid _ _ rfl rfl]
    show max (maxTurnIndex log sid) (max (maxTurnIndex log sid + 1) (maxTurnIndex log sid + 1)) = _
    omega
  refine ⟨rfl, hlog, hmax, ?_, ?_⟩
  · intro hempty
    show maxTurnIndex log sid + 1 = 1
    unfold maxTurnIndex
    rw [hempty]
    rfl
  · intro text2 llm2 now2
    show maxTurnIndex (process_message log sid text n db llm now).log sid + 1 = _
    rw [hmax]
    rfl

theorem turn_index_assignment_witness :
    (process_message [] "s1" "halo" 3 ⟨[], [], []⟩ (Except.ok "hai juga") 0).turn_index = 1 :=
  (turn_index_assignment [] "s1" "halo" 3 ⟨[], [], []⟩ (Except.ok "hai juga") 0).2.2.2.1
    (by decide)

set_option maxRecDepth 8192 in
/-- C1 counterexample: on an empty log (so with no prior turns at all), the
memory excerpt obtained inside `process_message` is exactly the current
turn's just-persisted user message — the excerpt is fetched after the user
message is saved, refuting "pre-insertion state, prior turns only". -/
theorem memory_excerpt_contains_current_message :
    (process_message [] "s1" "halo" 3 ⟨[], [], []⟩ (Except.ok "hai juga") 0).memory_context
      = [⟨"user", "halo"⟩] := by
  decide

/-- C1 (amended): the memory excerpt obtained by `process_message` reflects
the post-insertion state of the message log — it equals the excerpt of the
log with the current user message appended, and (whenever `maxExchanges ≥ 1`)
its final entry is the current turn's just-persisted user message. -/
theorem memory_excerpt_post_insertion (log : List Msg) (sid text : String) (n : Nat)
    (db : DB) (llm : Except Unit String) (now : Nat) (h : 1 ≤ n) :
    (process_message log sid text n db llm now).memory_context =
      get_memory_context
        (log ++ [⟨sid, "user", text, get_next_turn_index log sid, now⟩]) sid n
    ∧ (process_message log sid text n db llm now).memory_context.getLast? =
        some ⟨"user", text⟩ := by
  refine ⟨rfl, ?_⟩
  obtain ⟨u, hu⟩ : ∃ u : Msg, u = ⟨sid, "user", text, maxTurnIndex log sid + 1, now⟩ :=
    ⟨_, rfl⟩
  have huturn : u.turn_index = maxTurnIndex log sid + 1 := by rw [hu]
  have hl1 : sessionMessages [u] sid = [u] := by
    simp [sessionMessages, hu]
  have hctx : (process_message log sid text n db llm now).memory_context =
      ((((sessionMessages log sid ++ [u]).insertionSort memDescLe).take (n * 2)).reverse).map
        (fun m => (⟨m.role, m.content⟩ : MemoryEntry)) := by
    rw [hu] at hl1 ⊢
    show get_memory_context
        (log ++ [⟨sid, "user", text, maxTurnIndex log sid + 1, now⟩]) sid n = _
    unfold get_memory_context get_memory_context_from memoryRows
    rw [sessionMessages_append, hl1]
  have hmem : u ∈ (sessionMessages log sid ++ [u]).insertionSort memDescLe :=
    (List.perm_insertionSort memDescLe _).mem_iff.mpr
      (List.mem_append_right _ (by simp))
  have hpw : List.Pairwise memDescLe
      ((sessionMessages log sid ++ [u]).insertionSort memDescLe) :=
    List.sorted_insertionSort memDescLe _
  cases hsc : (sessionMessages log sid ++ [u]).insertionSort memDescLe with
  | nil =>
    rw [hsc] at hmem
    cases hmem
  | cons hd tl =>
    have hhd : hd = u := by
      rw [hsc] at hmem hpw
      rcases List.mem_cons.mp hmem with h1 | h1
      · exact h1.symm
      · have hle : memDescLe hd u := (List.pairwise_cons.mp hpw).1 _ h1
        have hhl : hd ∈ sessionMessages log sid ++ [u] :=
          (List.perm_insertionSort memDescLe _).mem_iff.mp
            (by rw [hsc]; exact List.mem_cons_self _ _)
        rcases List.mem_append.mp hhl with h2 | h2
        · exfalso
          have hb : hd.turn_index ≤ maxTurnIndex log sid := turn_le_maxTurnIndex h2
          unfold memDescLe at hle
          rw [huturn] at hle
          omega
        · simpa using h2
    have htake : ((sessionMessages log sid ++ [u]).insertionSort memDescLe).take (n * 2) =
        hd :: tl.take (n * 2 - 1) := by
      rw [hsc]
      have hn : n * 2 = (n * 2 - 1) + 1 := by omega
      rw [hn, List.take_succ_cons]
      simp
    rw [hctx, List.getLast?_map, List.getLast?_reverse, htake, hhd]
    simp [hu]

theorem memory_excerpt_post_insertion_witness :
    (process_message [⟨"s1", "user", "hai", 1, 0⟩, ⟨"s1", "assistant", "halo juga", 1, 1⟩]
        "s1" "apa kabar semuanya hari ini" 3 ⟨[], [], []⟩ (Except.ok "baik") 2).memory_context.getLast?
      = some ⟨"user", "apa kabar semuanya hari ini"⟩ :=
  (memory_excerpt_post_insertion
    [⟨"s1", "user", "hai", 1, 0⟩, ⟨"s1", "assistant", "halo juga", 1, 1⟩]
    "s1" "apa kabar semuanya hari ini" 3 ⟨[], [], []⟩ (Except.ok "baik") 2 (by decide)).2

/-! ### Helper lemmas for the order-status message (C6) -/

theorem pyStartsWith_true {p s : String} (h : p.toList <+: s.toList) :
    pyStartsWith s p = true := by
  simpa [pyStartsWith] using h

theorem pyStartsWith_false {p s : String} (h : ¬ (p.toList <+: s.toList)) :
    pyStartsWith s p = false := by
  cases hb : pyStartsWith s p
  · rfl
  · exact absurd (by simpa [pyStartsWith] using hb) h

theorem prefix_fails_of_head_ne {a b : Char} {l₁ l₂ : List Char}
    (hp : l₁.head? = some a) (hs : l₂.head? = some b) (hab : a ≠ b) :
    ¬ (l₁ <+: l₂) := by
  cases l₁ with
  | nil => simp at hp
  | cons x xs =>
    cases l₂ with
    | nil => simp at hs
    | cons y ys =>
      simp at hp hs
      intro hpre
      rcases List.cons_prefix_cons.mp hpre with ⟨hxy, -⟩
      exact hab (by rw [← hp, ← hs, hxy])

theorem pyStartsWith_false_of_head {p s : String} {a b : Char}
    (hp : p.toList.head? = some a) (hs : s.toList.head? = some b) (hab : a ≠ b) :
    pyStartsWith s p = false :=
  pyStartsWith_false (prefix_fails_of_head_ne hp hs hab)

theorem pyStartsWith_append_self (lit rest : String) :
    pyStartsWith (lit ++ rest) lit = true :=
  pyStartsWith_true (by rw [toList_append]; exact List.prefix_append _ _)

theorem pyStartsWith_via (c t : String) :
    pyStartsWith ("via " ++ c ++ " dengan nomor resi " ++ t) "via " = true := by
  apply pyStartsWith_true
  rw [show ("via " ++ c ++ " dengan nomor resi " ++ t).toList =
      "via ".toList ++ (c.toList ++ (" dengan nomor resi ".toList ++ t.toList)) by
    simp [toList_append]]
  exact List.prefix_append _ _

theorem head_via (c t : String) :
    ("via " ++ c ++ " dengan nomor resi " ++ t).toList.head? = some 'v' := rfl

theorem head_eta (e : String) :
    ("dengan estimasi tiba " ++ e).toList.head? = some 'd' := rfl

theorem head_headPart (oid : String) (o : Order) :
    (headPart oid o).toList.head? = some 'P' := rfl

theorem head_update (u : String) :
    ("Terakhir diupdate: " ++ u).toList.head? = some 'T' := rfl

theorem truthyStr_iff {x : Option String} :
    truthyStr x = true ↔ ∃ s, x = some s ∧ s ≠ "" := by
  cases x <;> simp [truthyStr]

theorem carrierParts_of_truthy {o : Order} {c t : String}
    (hc : o.carrier = some c) (ht : o.tracking_number = some t)
    (hc1 : c ≠ "") (ht1 : t ≠ "") :
    carrierParts o = ["via " ++ c ++ " dengan nomor resi " ++ t] := by
  simp [carrierParts, hc, ht, hc1, ht1]

theorem mem_carrierParts {o : Order} {p : String} (h : p ∈ carrierParts o) :
    pyStartsWith p "via " = true
    ∧ pyStartsWith p "dengan estimasi tiba " = false
    ∧ truthyStr o.carrier = true ∧ truthyStr o.tracking_number = true := by
  cases hc : o.carrier with
  | none => simp [carrierParts, hc] at h
  | some c =>
    cases ht : o.tracking_number with
    | none => simp [carrierParts, hc, ht] at h
    | some t =>
      by_cases hw : c ≠ "" ∧ t ≠ ""
      · rw [carrierParts_of_truthy hc ht hw.1 hw.2] at h
        simp at h
        subst h
        exact ⟨pyStartsWith_via c t,
          pyStartsWith_false_of_head rfl (head_via c t) (by decide),
          by simp [truthyStr, hc, hw.1], by simp [truthyStr, ht, hw.2]⟩
      · simp [carrierParts, hc, ht, hw] at h

theorem etaParts_of_some {o : Order} {e : String} (he : o.eta_date = some e)
    (hs : o.status = "confirmed" ∨ o.status = "shipped") :
    etaParts o = ["dengan estimasi tiba " ++ e] := by
  simp [etaParts, he, hs]

theorem mem_etaParts {o : Order} {p : String} (h : p ∈ etaParts o) :
    pyStartsWith p "dengan estimasi tiba " = true
    ∧ pyStartsWith p "via " = false
    ∧ o.eta_date.isSome = true ∧ (o.status = "confirmed" ∨ o.status = "shipped") := by
  cases he : o.eta_date with
  | none => simp [etaParts, he] at h
  | some e =>
    by_cases hs : o.status = "confirmed" ∨ o.status = "shipped"
    · rw [etaParts_of_some he hs] at h
      simp at h
      subst h
      exact ⟨pyStartsWith_append_self "dengan estimasi tiba " e,
        pyStartsWith_false_of_head rfl (head_eta e) (by decide),
        by simp [he], hs⟩
    · simp [etaParts, he, hs] at h

theorem mem_updateParts {o : Order} {p : String} (h : p ∈ updateParts o) :
    pyStartsWith p "via " = false ∧ pyStartsWith p "dengan estimasi tiba " = false := by
  cases hu : o.last_update_at with
  | none => simp [updateParts, hu] at h
  | some u =>
    simp [updateParts, hu] at h
    subst h
    exact ⟨pyStartsWith_false_of_head rfl (head_update u) (by decide),
      pyStartsWith_false_of_head rfl (head_update u) (by decide)⟩

theorem headPart_not_via (oid : String) (o : Order) :
    pyStartsWith (headPart oid o) "via " = false :=
  pyStartsWith_false_of_head rfl (head_headPart oid o) (by decide)

theorem headPart_not_eta (oid : String) (o : Order) :
    pyStartsWith (headPart oid o) "dengan estimasi tiba " = false :=
  pyStartsWith_false_of_head rfl (head_headPart oid o) (by decide)

theorem mem_responseParts {oid : String} {o : Order} {p : String} :
    p ∈ responseParts oid o ↔
      p = headPart oid o ∨ p ∈ carrierParts o ∨ p ∈ etaParts o ∨ p ∈ updateParts o := by
  simp [responseParts]

theorem infix_pyJoin_of_mem {p : String} (sep : String) (parts : List String) (h : p ∈ parts) :
    p.toList <:+: (pyJoin sep parts).toList := by
  induction parts with
  | nil => cases h
  | cons s rest ih =>
    rcases List.mem_cons.mp h with rfl | hm
    · cases rest with
      | nil => exact List.infix_refl _
      | cons r rs =>
        show p.toList <:+: (p ++ sep ++ pyJoin sep (r :: rs)).toList
        rw [show (p ++ sep ++ pyJoin sep (r :: rs)).toList =
            p.toList ++ (sep.toList ++ (pyJoin sep (r :: rs)).toList) by
          simp [toList_append]]
        exact (List.prefix_append _ _).isInfix
    · cases rest with
      | nil => cases hm
      | cons r rs =>
        have h2 := ih hm
        show p.toList <:+: (s ++ sep ++ pyJoin sep (r :: rs)).toList
        rw [show (s ++ sep ++ pyJoin sep (r :: rs)).toList =
            (s.toList ++ sep.toList) ++ (pyJoin sep (r :: rs)).toList by
          simp [toList_append]]
        exact infix_append_right h2

theorem infix_composeOrderMessage {oid : String} {o : Order} {p : String}
    (h : p ∈ responseParts oid o) :
    p.toList <:+: (composeOrderMessage oid o).toList := by
  have h1 := infix_pyJoin_of_mem ". " _ h
  unfold composeOrderMessage
  rw [toList_append]
  exact h1.trans (List.prefix_append _ _).isInfix

theorem infix_carrier_in_part (c t : String) :
    c.toList <:+: ("via " ++ c ++ " dengan nomor resi " ++ t).toList := by
  rw [show ("via " ++ c ++ " dengan nomor resi " ++ t).toList =
      "via ".toList ++ c.toList ++ (" dengan nomor resi ".toList ++ t.toList) by
    simp [toList_append]]
  exact List.infix_append _ _ _

theorem infix_tracking_in_part (c t : String) :
    t.toList <:+: ("via " ++ c ++ " dengan nomor resi " ++ t).toList := by
  rw [show ("via " ++ c ++ " dengan nomor resi " ++ t).toList =
      ("via ".toList ++ c.toList ++ " dengan nomor resi ".toList) ++ t.toList by
    simp [toList_append]]
  exact (List.suffix_append _ _).isInfix

theorem infix_eta_in_part (e : String) :
    e.toList <:+: ("dengan estimasi tiba " ++ e).toList := by
  rw [toList_append]
  exact (List.suffix_append _ _).isInfix

/-- C6: for every found order, the composed message maps the five known
status codes to their fixed phrases and passes unmapped codes through raw;
the carrier+tracking part is present exactly when both are present (non-null
and non-empty); the ETA part is present exactly when an ETA exists and the
status is `"confirmed"` or `"shipped"`; for status `"shipped"` with carrier
and tracking present the message contains the carrier name, the tracking
number, and (if set) the ETA date; and for status `"delivered"` no part of
the message is an ETA phrase. -/
theorem order_status_message_spec :
    (statusText "pending" = "sedang diproses"
      ∧ statusText "confirmed" = "telah dikonfirmasi"
      ∧ statusText "shipped" = "sedang dalam pengiriman"
      ∧ statusText "delivered" = "telah sampai tujuan"
      ∧ statusText "cancelled" = "telah dibatalkan")
    ∧ (∀ s, s ∉ (["pending", "confirmed", "shipped", "delivered", "cancelled"] : List String) →
        statusText s = s)
    ∧ (∀ oid (o : Order), (∃ p ∈ responseParts oid o, pyStartsWith p "via " = true) ↔
        (truthyStr o.carrier = true ∧ truthyStr o.tracking_number = true))
    ∧ (∀ oid (o : Order),
        (∃ p ∈ responseParts oid o, pyStartsWith p "dengan estimasi tiba " = true) ↔
        (o.eta_date.isSome = true ∧ (o.status = "confirmed" ∨ o.status = "shipped")))
    ∧ (∀ oid (o : Order) c t, o.status = "shipped" → o.carrier = some c →
        o.tracking_number = some t → c ≠ "" → t ≠ "" →
        c.toList <:+: (composeOrderMessage oid o).toList
        ∧ t.toList <:+: (composeOrderMessage oid o).toList
        ∧ (∀ e, o.eta_date = some e → e.toList <:+: (composeOrderMessage oid o).toList))
    ∧ (∀ oid (o : Order), o.status = "delivered" →
        ∀ p ∈ responseParts oid o, pyStartsWith p "dengan estimasi tiba " = false) := by
  refine ⟨⟨rfl, rfl, rfl, rfl, rfl⟩, ?_, ?_, ?_, ?_, ?_⟩
  · intro s hs
    simp at hs
    obtain ⟨h1, h2, h3, h4, h5⟩ := hs
    simp [statusText, h1, h2, h3, h4, h5]
  · intro oid o
    constructor
    · rintro ⟨p, hp, hvia⟩
      rcases mem_responseParts.mp hp with rfl | hcp | hep | hup
      · simp [headPart_not_via oid o] at hvia
      · exact ⟨(mem_carrierParts hcp).2.2.1, (mem_carrierParts hcp).2.2.2⟩
      · simp [(mem_etaParts hep).2.1] at hvia
      · simp [(mem_updateParts hup).1] at hvia
    · rintro ⟨h1, h2⟩
      obtain ⟨c, hc, hc1⟩ := truthyStr_iff.mp h1
      obtain ⟨t, ht, ht1⟩ := truthyStr_iff.mp h2
      refine ⟨"via " ++ c ++ " dengan nomor resi " ++ t, ?_, pyStartsWith_via c t⟩
      rw [mem_responseParts]
      right; left
      rw [carrierParts_of_truthy hc ht hc1 ht1]
      simp
  · intro oid o
    constructor
    · rintro ⟨p, hp, heta⟩
      rcases mem_responseParts.mp hp with rfl | hcp | hep | hup
      · simp [headPart_not_eta oid o] at heta
      · simp [(mem_carrierParts hcp).2.1] at heta
      · exact ⟨(mem_etaParts hep).2.2.1, (mem_etaParts hep).2.2.2⟩
      · simp [(mem_updateParts hup).2] at heta
    · rintro ⟨h1, h2⟩
      obtain ⟨e, he⟩ := Option.isSome_iff_exists.mp h1
      refine ⟨"dengan estimasi tiba " ++ e, ?_, pyStartsWith_append_self _ _⟩
      rw [mem_responseParts]
      right; right; left
      rw [etaParts_of_some he h2]
      simp
  · intro oid o c t hst hc ht hc1 ht1
    have hmemc : ("via " ++ c ++ " dengan nomor resi " ++ t) ∈ responseParts oid o := by
      rw [mem_responseParts]
      right; left
      rw [carrierParts_of_truthy hc ht hc1 ht1]
      simp
    refine ⟨(infix_carrier_in_part c t).trans (infix_composeOrderMessage hmemc),
      (infix_tracking_in_part c t).trans (infix_composeOrderMessage hmemc), ?_⟩
    intro e he
    have hmeme : ("dengan estimasi tiba " ++ e) ∈ responseParts oid o := by
      rw [mem_responseParts]
      right; right; left
      rw [etaParts_of_some he (Or.inr hst)]
      simp
    exact (infix_eta_in_part e).trans (infix_composeOrderMessage hmeme)
  · intro oid o hdel p hp
    rcases mem_responseParts.mp hp with rfl | hcp | hep | hup
    · exact headPart_not_eta oid o
    · exact (mem_carrierParts hcp).2.1
    · exfalso
      have h2 := (mem_etaParts hep).2.2.2
      rw [hdel] at h2
      rcases h2 with h2 | h2 <;> simp at h2
    · exact (mem_updateParts hup).2

theorem order_status_message_spec_witness :
    "JNE".toList <:+:
      (composeOrderMessage "ORD123"
        ⟨"ORD123", "u1", "shipped", some "16 September 2025 pukul 14:30",
         some "18 September 2025", some "JNE", some "JNE789"⟩).toList
    ∧ "JNE789".toList <:+:
      (composeOrderMessage "ORD123"
        ⟨"ORD123", "u1", "shipped", some "16 September 2025 pukul 14:30",
         some "18 September 2025", some "JNE", some "JNE789"⟩).toList
    ∧ "18 September 2025".toList <:+:
      (composeOrderMessage "ORD123"
        ⟨"ORD123", "u1", "shipped", some "16 September 2025 pukul 14:30",
         some "18 September 2025", some "JNE", some "JNE789"⟩).toList
    ∧ statusText "processing" = "processing" := by
  have h := order_status_message_spec
  have h5 := h.2.2.2.2.1 "ORD123"
    ⟨"ORD123", "u1", "shipped", some "16 September 2025 pukul 14:30",
     some "18 September 2025", some "JNE", some "JNE789"⟩
    "JNE" "JNE789" rfl rfl rfl (by decide) (by decide)
  exact ⟨h5.1, h5.2.1, h5.2.2 _ rfl, h.2.1 "processing" (by decide)⟩

end Chatbot
